import Mathlib

/-!
Shallow embedding of the organization RBAC, hourly rate limiting, and
plan-usage-limit core of the SUNA backend:

* `backend/core/organizations/rbac.py`
* `backend/core/organizations/hourly_rate_limiter.py`
* `backend/core/organizations/usage_limits.py`

External collaborators (the Role Store, the Redis counter store, the usage
ledger, the dedup cache) are modelled as explicit function-valued state or
as input parameters; async I/O points become pure state passing; exceptions
raised by the stores are modelled with explicit failure flags (the Python
code wraps the store interactions in try/except blocks).
-/

namespace Suna

/-! ## Permission model (rbac.py) -/

/-- `OrganizationRole`: the four member roles, a Python `str` enum whose
values are "owner", "admin", "member", "viewer". -/
inductive OrgRole
  | owner
  | admin
  | member
  | viewer
deriving DecidableEq

/-- The `.value` string of each role (the Python enum is a `str` enum, so
role values hash and compare equal to these plain strings). -/
def roleValue : OrgRole → String
  | .owner => "owner"
  | .admin => "admin"
  | .member => "member"
  | .viewer => "viewer"

/-- `OrganizationRole(role_str)`: fallible parse of a stored role string
(raises `ValueError` in Python for any other string, modelled as `none`). -/
def parseRole : String → Option OrgRole
  | "owner" => some .owner
  | "admin" => some .admin
  | "member" => some .member
  | "viewer" => some .viewer
  | _ => none

/-- The `Permission` enum: fine-grained capabilities assignable to roles. -/
inductive Permission
  | orgDelete
  | orgUpdate
  | orgView
  | billingManage
  | billingView
  | membersManage
  | membersInvite
  | membersView
  | agentsCreate
  | agentsDeleteAny
  | agentsDeleteOwn
  | agentsUpdateAny
  | agentsUpdateOwn
  | agentsView
  | agentsRun
  | threadsCreate
  | threadsDeleteAny
  | threadsDeleteOwn
  | threadsView
  | settingsUpdate
  | settingsView
deriving DecidableEq, BEq

/-- The role values that appear as keys of `ROLE_PERMISSIONS` and
`ROLE_HIERARCHY` (all four members of the enum). -/
def definedRoleValues : List String := ["owner", "admin", "member", "viewer"]

/-- `ROLE_PERMISSIONS`: the authoritative role-to-permission-set table.
Keyed here by the role value string, because the Python dict is keyed by a
`str`-enum whose members hash/compare as their value strings; a role value
absent from the table yields the empty set (`dict.get(role, set())`). -/
def rolePermissionsList (role : String) : List Permission :=
  if role = "owner" then
    [.orgDelete, .orgUpdate, .orgView,
     .billingManage, .billingView,
     .membersManage, .membersInvite, .membersView,
     .agentsCreate, .agentsDeleteAny, .agentsDeleteOwn,
     .agentsUpdateAny, .agentsUpdateOwn, .agentsView, .agentsRun,
     .threadsCreate, .threadsDeleteAny, .threadsDeleteOwn, .threadsView,
     .settingsUpdate, .settingsView]
  else if role = "admin" then
    [.orgUpdate, .orgView,
     .billingView,
     .membersManage, .membersInvite, .membersView,
     .agentsCreate, .agentsDeleteAny, .agentsDeleteOwn,
     .agentsUpdateAny, .agentsUpdateOwn, .agentsView, .agentsRun,
     .threadsCreate, .threadsDeleteAny, .threadsDeleteOwn, .threadsView,
     .settingsUpdate, .settingsView]
  else if role = "member" then
    [.orgView, .membersView,
     .agentsCreate, .agentsDeleteOwn, .agentsUpdateOwn, .agentsView, .agentsRun,
     .threadsCreate, .threadsDeleteOwn, .threadsView,
     .settingsView]
  else if role = "viewer" then
    [.orgView, .membersView, .agentsView, .threadsView, .settingsView]
  else
    []

/-- `role_has_permission(role, permission)`: pure membership test in the
role's permission set. -/
def roleHasPermission (role : String) (permission : Permission) : Bool :=
  (rolePermissionsList role).contains permission

/-- `ROLE_HIERARCHY.get(role, 0)`: the integer rank of a role value, with
default 0 for a role value not present in the table. -/
def roleRank (role : String) : Nat :=
  if role = "owner" then 4
  else if role = "admin" then 3
  else if role = "member" then 2
  else if role = "viewer" then 1
  else 0

/-- `role_at_least(role, min_role)`:
`ROLE_HIERARCHY.get(role, 0) >= ROLE_HIERARCHY.get(min_role, 0)`. -/
def roleAtLeast (role minRole : String) : Bool :=
  decide (roleRank role ≥ roleRank minRole)

/-! ## Access context resolver (rbac.py) -/

/-- An `HTTPException`: status code plus the `detail` message surfaced to
the caller. -/
structure HttpError where
  status : Nat
  detail : String
deriving DecidableEq

/-- `OrgAccessContext`: the per-request authorization snapshot. -/
structure OrgAccessContext where
  user_id : String
  org_id : String
  role : OrgRole
deriving DecidableEq

/-- `OrgAccessContext.has_permission`. -/
def OrgAccessContext.hasPermission (ctx : OrgAccessContext) (p : Permission) : Bool :=
  roleHasPermission (roleValue ctx.role) p

/-- `OrgAccessContext.is_at_least`. -/
def OrgAccessContext.isAtLeast (ctx : OrgAccessContext) (minRole : OrgRole) : Bool :=
  roleAtLeast (roleValue ctx.role) (roleValue minRole)

/-- The external state read by the resolver: the Role Store
(`org_repo.get_user_role_in_org`, keyed by user id and org id) plus, for
stating org-existence independence, the set of existing organizations.
The resolver never consults `orgExists`; it appears here only so that
independence from it is expressible. -/
structure OrgState where
  memberRole : String → String → Option String
  orgExists : String → Bool

/-- The tail of `_get_org_access_context` once the stored role string has
parsed: the min-role gate, then the required-permission gate. -/
def roleGates (userId orgId : String) (role : OrgRole)
    (minRole : Option OrgRole) (requiredPermission : Option Permission) :
    Except HttpError OrgAccessContext :=
  match minRole with
  | some m =>
      if roleAtLeast (roleValue role) (roleValue m) then
        match requiredPermission with
        | some p =>
            if roleHasPermission (roleValue role) p then
              .ok ⟨userId, orgId, role⟩
            else
              .error ⟨403, "You don\x27t have permission to perform this action"⟩
        | none => .ok ⟨userId, orgId, role⟩
      else
        .error ⟨403, "This action requires " ++ roleValue m ++ " role or higher"⟩
  | none =>
      match requiredPermission with
      | some p =>
          if roleHasPermission (roleValue role) p then
            .ok ⟨userId, orgId, role⟩
          else
            .error ⟨403, "You don\x27t have permission to perform this action"⟩
      | none => .ok ⟨userId, orgId, role⟩

/-- `_get_org_access_context(org_id, user_id, min_role, required_permission)`.
`if not role_str` in Python is true both for a missing row (`None`) and for
an empty string, so both deny with 403 "Access denied". An unparseable
role string raises 500 "Invalid role configuration". -/
def getOrgAccessContext (st : OrgState) (orgId userId : String)
    (minRole : Option OrgRole) (requiredPermission : Option Permission) :
    Except HttpError OrgAccessContext :=
  match st.memberRole userId orgId with
  | none => .error ⟨403, "Access denied"⟩
  | some roleStr =>
      if roleStr.isEmpty then .error ⟨403, "Access denied"⟩
      else
        match parseRole roleStr with
        | none => .error ⟨500, "Invalid role configuration"⟩
        | some role => roleGates userId orgId role minRole requiredPermission

/-- `require_org_viewer`. -/
def requireOrgViewer (st : OrgState) (orgId userId : String) :
    Except HttpError OrgAccessContext :=
  getOrgAccessContext st orgId userId (some .viewer) none

/-- `require_org_member`. -/
def requireOrgMember (st : OrgState) (orgId userId : String) :
    Except HttpError OrgAccessContext :=
  getOrgAccessContext st orgId userId (some .member) none

/-- `require_org_admin`. -/
def requireOrgAdmin (st : OrgState) (orgId userId : String) :
    Except HttpError OrgAccessContext :=
  getOrgAccessContext st orgId userId (some .admin) none

/-- `require_org_owner`. -/
def requireOrgOwner (st : OrgState) (orgId userId : String) :
    Except HttpError OrgAccessContext :=
  getOrgAccessContext st orgId userId (some .owner) none

/-! ## Hourly rate limiter (hourly_rate_limiter.py) -/

/-- A UTC wall-clock instant, as the fields of a Python
`datetime` the limiter reads (`year/month/day/hour/minute/second`). -/
structure Tm where
  year : Nat
  month : Nat
  day : Nat
  hour : Nat
  minute : Nat
  second : Nat
deriving DecidableEq

/-- Left-pad the decimal rendering of `n` with zeros to width `w`
(the `%Y %m %d %H` zero-padded `strftime` fields). -/
def padNum (w n : Nat) : String :=
  let s := toString n
  String.mk (List.replicate (w - s.length) '0') ++ s

/-- `now.replace(minute=0, second=0, microsecond=0).strftime("%Y%m%d%H")`:
the current UTC hour bucket string. -/
def hourStamp (t : Tm) : String :=
  padNum 4 t.year ++ padNum 2 t.month ++ padNum 2 t.day ++ padNum 2 t.hour

/-- `org_id if org_id else user_id`: the rate-limit context; an empty
org id string is falsy in Python, so it falls back to the user id. -/
def contextId (userId : String) (orgId : Option String) : String :=
  match orgId with
  | some s => if s.isEmpty then userId else s
  | none => userId

/-- `bool(org_id)`. -/
def isOrgContext (orgId : Option String) : Bool :=
  match orgId with
  | some s => !s.isEmpty
  | none => false

/-- `_get_current_hour_key(user_id, org_id)`:
`"rate_limit:hourly_runs:{context}:{hour_timestamp}"`. -/
def getCurrentHourKey (userId : String) (orgId : Option String) (t : Tm) : String :=
  "rate_limit:hourly_runs:" ++ contextId userId orgId ++ ":" ++ hourStamp t

/-- `_get_seconds_until_next_hour()`:
`max(1, 3600 - (minute * 60 + second))`. (Truncated `Nat` subtraction
agrees with the Python value here, since the `max 1` clamp absorbs any
non-positive difference.) -/
def secondsUntilNextHour (t : Tm) : Nat :=
  max 1 (3600 - (t.minute * 60 + t.second))

/-- Gregorian leap-year rule, as used by Python's `datetime` calendar. -/
def isLeapYear (y : Nat) : Bool :=
  (y % 4 == 0 && y % 100 != 0) || y % 400 == 0

/-- Number of days in a month of the proleptic Gregorian calendar used by
Python's `datetime` (a month outside 1..12 cannot arise from a real
`datetime.now()` value; the default 31 is irrelevant there). -/
def daysInMonth (y m : Nat) : Nat :=
  if m = 2 then (if isLeapYear y then 29 else 28)
  else if m = 4 ∨ m = 6 ∨ m = 9 ∨ m = 11 then 30
  else 31

/-- `_get_next_hour_reset_time()` up to formatting: zero the minute and
second, advance the hour modulo 24, and on the 23:00 hour bump the day
with `next_hour.replace(day=next_hour.day + 1)`. `datetime.replace`
validates the new day against the month's length, so on the last day of a
month this raises `ValueError` — modelled as `none`; the caller's
enclosing `try` turns that exception into the fail-open result. -/
def getNextHourResetTime (t : Tm) : Option Tm :=
  let nextHour : Tm :=
    { t with minute := 0, second := 0, hour := (t.hour + 1) % 24 }
  if t.hour = 23 then
    if nextHour.day + 1 ≤ daysInMonth nextHour.year nextHour.month then
      some { nextHour with day := nextHour.day + 1 }
    else none
  else some nextHour

/-- `datetime.isoformat()` for a UTC instant: `YYYY-MM-DDTHH:MM:SS+00:00`. -/
def isoOfTm (t : Tm) : String :=
  padNum 4 t.year ++ "-" ++ padNum 2 t.month ++ "-" ++ padNum 2 t.day ++ "T" ++
    padNum 2 t.hour ++ ":" ++ padNum 2 t.minute ++ ":" ++ padNum 2 t.second ++ "+00:00"

/-- `RATE_LIMIT_TTL_SECONDS = 3660`. -/
def RATE_LIMIT_TTL_SECONDS : Nat := 3660

/-- The Redis counter store: key to current counter value (0 for an
absent key, matching `INCR` semantics on a missing key). -/
abbrev RateStore := String → Nat

/-- The Redis calls the limiter issues, recorded so that frame conditions
("never touches the counter store") are expressible. -/
inductive RedisOp
  | incr (key : String)
  | expire (key : String) (ttl : Nat)
deriving DecidableEq

/-- The structured 429 payload built by `_build_rate_limit_error`. -/
structure RateLimitError where
  error_code : String
  message : String
  current_count : Nat
  limit : Nat
  plan_tier : String
  plan_display_name : String
  retry_after_seconds : Nat
  reset_at : String
  upgrade_text : String
  upgrade_url : String
  upgrade_description : String
deriving DecidableEq

/-- `_build_rate_limit_error(...)`. -/
def buildRateLimitError (current_count limit : Nat)
    (plan_tier plan_display_name : String) (retry_after_seconds : Nat)
    (reset_at context_id : String) (is_org : Bool) : RateLimitError :=
  { error_code := "HOURLY_RATE_LIMIT_EXCEEDED"
    message := "Hourly rate limit exceeded. You\x27ve made " ++ toString current_count ++
      " requests this hour. Your " ++ plan_display_name ++ " plan allows " ++
      toString limit ++ " per hour."
    current_count := current_count
    limit := limit
    plan_tier := plan_tier
    plan_display_name := plan_display_name
    retry_after_seconds := retry_after_seconds
    reset_at := reset_at
    upgrade_text := "Upgrade Plan"
    upgrade_url := if is_org then "/settings/billing?org=" ++ context_id
      else "/settings/billing"
    upgrade_description := "Upgrade to Pro for 100 runs/hour or Enterprise for unlimited" }

/-- The result dict of `check_hourly_rate_limit`. -/
structure RateCheckOutcome where
  can_proceed : Bool
  current_count : Nat
  limit : Option Nat
  plan_tier : String
  error_response : Option RateLimitError
  retry_after_seconds : Option Nat
deriving DecidableEq

/-- `str.lower()`, character by character (the plan-tier and role strings
involved are ASCII, where Python and Unicode lowercasing agree). -/
def pyLower (s : String) : String := String.mk (s.data.map Char.toLower)

/-- `plan_tier.lower() if plan_tier else "free"`: `None` and the empty
string both normalize to `"free"`. -/
def normTier (planTier : Option String) : String :=
  match planTier with
  | some s => if s.isEmpty then "free" else pyLower s
  | none => "free"

/-- `HOURLY_RATE_LIMITS.get(tier)`: `"free" -> 10`, `"pro" -> 100`,
`"enterprise" -> None`, and `None` (the `.get` default) for any key not in
the dict — so an unknown tier is indistinguishable from enterprise here. -/
def hourlyLimitFor (tier : String) : Option Nat :=
  if tier = "free" then some 10
  else if tier = "pro" then some 100
  else if tier = "enterprise" then none
  else none

/-- `str.capitalize()`: first character uppercased, the rest lowercased. -/
def capitalize (s : String) : String :=
  match s.data with
  | [] => ""
  | c :: cs => String.mk (c.toUpper :: cs.map Char.toLower)

/-- The `plan_display_names` lookup with `tier.capitalize()` fallback. -/
def planDisplayName (tier : String) : String :=
  if tier = "free" then "Free"
  else if tier = "pro" then "Pro"
  else if tier = "enterprise" then "Enterprise"
  else capitalize tier

/-- The unlimited (`limit is None`) early return of
`check_hourly_rate_limit`. -/
def unlimitedOutcome (tier : String) : RateCheckOutcome :=
  { can_proceed := true
    current_count := 0
    limit := none
    plan_tier := tier
    error_response := none
    retry_after_seconds := none }

/-- `plan_tier or 'unknown'`. -/
def planTierOrUnknown (planTier : Option String) : String :=
  match planTier with
  | some s => if s.isEmpty then "unknown" else s
  | none => "unknown"

/-- The fail-open result returned by the `except` handler of
`check_hourly_rate_limit`. -/
def failOpenOutcome (planTier : Option String) : RateCheckOutcome :=
  { can_proceed := true
    current_count := 0
    limit := none
    plan_tier := planTierOrUnknown planTier
    error_response := none
    retry_after_seconds := none }

/-- The increment-then-compare tail of `check_hourly_rate_limit`:
`can_proceed = current_count <= limit`, and on denial the structured 429
payload plus `retry_after_seconds`. The denial enrichment calls
`_get_next_hour_reset_time()`; when that raises (hour 23 on a month's
last day) the exception propagates, modelled as `none`. -/
def rateLimitVerdict (tier : String) (limit : Nat) (userId : String)
    (orgId : Option String) (t : Tm) (currentCount : Nat) :
    Option RateCheckOutcome :=
  if currentCount ≤ limit then
    some { can_proceed := true
           current_count := currentCount
           limit := some limit
           plan_tier := tier
           error_response := none
           retry_after_seconds := none }
  else
    let retryAfter := secondsUntilNextHour t
    match getNextHourResetTime t with
    | none => none
    | some resetTm =>
        some { can_proceed := false
               current_count := currentCount
               limit := some limit
               plan_tier := tier
               error_response := some (buildRateLimitError currentCount limit tier
                 (planDisplayName tier) retryAfter (isoOfTm resetTm)
                 (contextId userId orgId) (isOrgContext orgId))
               retry_after_seconds := some retryAfter }

/-- The enclosing `try` of `check_hourly_rate_limit` around the verdict:
a propagated exception (`none` verdict, the `ValueError` case) is caught
by the `except` handler and answered with the fail-open result. -/
def verdictOrFailOpen (planTier : Option String)
    (verdict : Option RateCheckOutcome) : RateCheckOutcome :=
  match verdict with
  | some outcome => outcome
  | none => failOpenOutcome planTier

/-- `check_hourly_rate_limit(user_id, org_id, plan_tier)`.

The Redis store is threaded explicitly; `incrFails` / `expireFails` model
an exception raised by the corresponding Redis call, which the source
catches in its enclosing `try` and answers with the fail-open result. An
`incr` failure leaves the counter unchanged; an `expire` failure happens
after the increment has taken effect server-side. A `ValueError` raised
while building the denial's reset timestamp (a `none` verdict) is caught
the same way, after the increment and any expiry call have taken effect.
The returned `RedisOp` list records exactly which store calls were
issued. -/
def checkHourlyRateLimit (userId : String) (orgId : Option String)
    (planTier : Option String) (t : Tm) (store : RateStore)
    (incrFails expireFails : Bool) :
    RateCheckOutcome × RateStore × List RedisOp :=
  let tier := normTier planTier
  match hourlyLimitFor tier with
  | none => (unlimitedOutcome tier, store, [])
  | some limit =>
      let rateKey := getCurrentHourKey userId orgId t
      if incrFails then
        (failOpenOutcome planTier, store, [])
      else
        let currentCount := store rateKey + 1
        let store1 : RateStore := fun k => if k = rateKey then currentCount else store k
        if currentCount = 1 then
          if expireFails then
            (failOpenOutcome planTier, store1, [RedisOp.incr rateKey])
          else
            (verdictOrFailOpen planTier
              (rateLimitVerdict tier limit userId orgId t currentCount), store1,
              [RedisOp.incr rateKey, RedisOp.expire rateKey RATE_LIMIT_TTL_SECONDS])
        else
          (verdictOrFailOpen planTier
            (rateLimitVerdict tier limit userId orgId t currentCount), store1,
            [RedisOp.incr rateKey])

/-- Iterated rate checks against the same context and hour: the store
after `n` successive calls to `check_hourly_rate_limit`. -/
def iterateRateChecks (userId : String) (orgId : Option String)
    (planTier : Option String) (t : Tm) (incrFails expireFails : Bool) :
    Nat → RateStore → RateStore
  | 0, store => store
  | n + 1, store =>
      iterateRateChecks userId orgId planTier t incrFails expireFails n
        (checkHourlyRateLimit userId orgId planTier t store incrFails expireFails).2.1

/-! ## Plan usage limit checker (usage_limits.py) -/

/-- The row returned by `get_org_plan_and_usage`: org columns joined with
the plan-tier limits and the current month's usage-ledger counters. -/
structure OrgPlanInfo where
  org_id : String
  org_name : String
  plan_tier : String
  billing_status : String
  agent_limit : Option Nat
  run_limit_monthly : Option Nat
  plan_display_name : String
  monthly_price_cents : Nat
  agents_created : Nat
  runs_executed : Nat
  period_end : Option String
deriving DecidableEq

/-- The structured 402 payload built by `_build_limit_error`. -/
structure LimitError where
  error_code : String
  message : String
  current_count : Nat
  limit : Nat
  plan_tier : String
  plan_display_name : String
  org_id : String
  org_name : String
  upgrade_text : String
  upgrade_url : String
  upgrade_description : String
  period_end : Option String
deriving DecidableEq

/-- `_build_limit_error(...)`: the run-limit variant passes `period_end`,
which also rewrites the CTA description. -/
def buildLimitError (error_code message : String) (current_count limit : Nat)
    (plan_tier plan_display_name org_id org_name : String)
    (period_end : Option String) : LimitError :=
  { error_code := error_code
    message := message
    current_count := current_count
    limit := limit
    plan_tier := plan_tier
    plan_display_name := plan_display_name
    org_id := org_id
    org_name := org_name
    upgrade_text := "Upgrade Plan"
    upgrade_url := "/settings/billing?org=" ++ org_id
    upgrade_description :=
      match period_end with
      | some pe => "Upgrade to continue or wait until " ++ pe ++ " for limit reset"
      | none => "Unlock unlimited agents and more runs with Pro"
    period_end := period_end }

/-- The result dict of `check_org_agent_limit`. -/
structure AgentLimitResult where
  can_create : Bool
  current_count : Nat
  limit : Option Nat
  plan_tier : String
  error_response : Option LimitError
deriving DecidableEq

/-- `check_org_agent_limit(org_id)`, with its two awaited reads supplied
as inputs: `planInfo` is the `get_org_plan_and_usage` row (`none` when the
org is missing, the fail-open branch) and `liveAgentCount` is the
`count_org_agents` live count. The decision compares the live count —
never the ledger's `agents_created` — against the plan's `agent_limit`,
permitting strictly below the limit. -/
def checkOrgAgentLimit (planInfo : Option OrgPlanInfo) (liveAgentCount : Nat) :
    AgentLimitResult :=
  match planInfo with
  | none =>
      { can_create := true
        current_count := 0
        limit := none
        plan_tier := "unknown"
        error_response := none }
  | some p =>
      match p.agent_limit with
      | none =>
          { can_create := true
            current_count := liveAgentCount
            limit := none
            plan_tier := p.plan_tier
            error_response := none }
      | some agentLimit =>
          if liveAgentCount < agentLimit then
            { can_create := true
              current_count := liveAgentCount
              limit := some agentLimit
              plan_tier := p.plan_tier
              error_response := none }
          else
            { can_create := false
              current_count := liveAgentCount
              limit := some agentLimit
              plan_tier := p.plan_tier
              error_response := some (buildLimitError "ORG_AGENT_LIMIT_EXCEEDED"
                ("Agent limit reached. Your " ++ p.plan_display_name ++
                  " plan allows " ++ toString agentLimit ++
                  " agents. Upgrade to create more.")
                liveAgentCount agentLimit p.plan_tier p.plan_display_name
                p.org_id p.org_name none) }

/-- Python 3 `round` (banker's rounding, half to even) of the nonnegative
rational `num / den`, `den ≠ 0`. The source computes
`round((current_count / limit) * 100)` in floating point; this is the
exact-rational reading of that expression. -/
def pythonRound (num den : Nat) : Nat :=
  let q := num / den
  let r := num % den
  if 2 * r < den then q
  else if den < 2 * r then q + 1
  else if q % 2 = 0 then q else q + 1

/-- `check_and_notify_approaching_limit(org_id, limit_type, current_count,
limit, plan_tier)`, restricted to one `(org_id, limit_type)` pair: the
dedup-cache marker for that pair is the boolean `markerPresent`, and the
result is `(notificationDispatched, markerPresentAfter)`. The marker is
set before the (fire-and-forget) send, so a dispatch always yields a
present marker. -/
def checkAndNotifyApproachingLimit (currentCount : Nat) (limit : Option Nat)
    (markerPresent : Bool) : Bool × Bool :=
  match limit with
  | none => (false, markerPresent)
  | some l =>
      if l = 0 then (false, markerPresent)
      else
        let percentage := pythonRound (currentCount * 100) l
        if 80 ≤ percentage ∧ percentage < 100 then
          if markerPresent then (false, markerPresent)
          else (true, true)
        else (false, markerPresent)

/-- Substring occurrence on character lists: does `needle` start `hay`? -/
def listStartsWith : List Char → List Char → Bool
  | [], _ => true
  | _ :: _, [] => false
  | a :: as, b :: bs => a == b && listStartsWith as bs

/-- Substring occurrence on character lists: does `needle` occur anywhere
inside `hay`? -/
def occursIn (needle : List Char) : List Char → Bool
  | [] => needle.isEmpty
  | c :: t => listStartsWith needle (c :: t) || occursIn needle t

/-! ## Theorems -/

/-- Claim C1, counterexample: the claim says a role value not present in
the rank table "fails every comparison", for every choice of role and
min_role; but two unrecognized role values both get rank 0 and
`0 >= 0` holds, so `role_at_least("bogus", "bogus")` is `True`. -/
theorem c1_counterexample :
    roleRank "bogus" = 0 ∧ roleAtLeast "bogus" "bogus" = true := by
  constructor
  · rfl
  · rfl

/-- Claim C1 (amended): `role_at_least` is decided purely by the integer
rank table: `role_at_least(OWNER, VIEWER)` is true,
`role_at_least(VIEWER, OWNER)` is false, `role_at_least(r, r)` is true for
every defined role, any role value not in the rank table gets rank 0, and
an unrecognized role fails every comparison against a role of nonzero rank
(in particular against every defined role); against a min_role that is
itself unrecognized (also rank 0) the comparison succeeds. -/
theorem c1_amended :
    roleAtLeast "owner" "viewer" = true ∧
    roleAtLeast "viewer" "owner" = false ∧
    (∀ r, r ∈ definedRoleValues → roleAtLeast r r = true) ∧
    (∀ r, r ∉ definedRoleValues → roleRank r = 0) ∧
    (∀ role minRole, roleRank role = 0 → roleRank minRole ≠ 0 →
      roleAtLeast role minRole = false) ∧
    (∀ role minRole, roleRank role = 0 → roleRank minRole = 0 →
      roleAtLeast role minRole = true) := by
  refine ⟨rfl, rfl, ?_, ?_, ?_, ?_⟩
  · intro r hr
    simp only [definedRoleValues, List.mem_cons, List.not_mem_nil, or_false] at hr
    rcases hr with rfl | rfl | rfl | rfl <;> rfl
  · intro r hr
    simp only [definedRoleValues, List.mem_cons, List.not_mem_nil, or_false,
      not_or] at hr
    obtain ⟨h1, h2, h3, h4⟩ := hr
    simp [roleRank, h1, h2, h3, h4]
  · intro role minRole h1 h2
    simp only [roleAtLeast, ge_iff_le, h1, decide_eq_false_iff_not, not_le]
    omega
  · intro role minRole h1 h2
    simp [roleAtLeast, h1, h2]

/-- Claim C1 witness: instantiating the amended claim at the unrecognized
role "superuser" against the defined role "viewer". -/
theorem c1_amended_witness :
    roleAtLeast "superuser" "viewer" = false :=
  c1_amended.2.2.2.2.1 "superuser" "viewer" rfl (by decide)

/-- Claim C2: `role_has_permission` is pure set membership in the fixed
role-to-permissions table: `role_has_permission(ADMIN, BILLING_MANAGE)` is
false, `role_has_permission(OWNER, BILLING_MANAGE)` is true, and a role
value absent from the table has the empty permission set, so every
permission check on it is false. -/
theorem c2_role_has_permission :
    roleHasPermission "admin" Permission.billingManage = false ∧
    roleHasPermission "owner" Permission.billingManage = true ∧
    (∀ r, r ∉ definedRoleValues → ∀ p, roleHasPermission r p = false) := by
  refine ⟨by decide, by decide, ?_⟩
  intro r hr p
  simp only [definedRoleValues, List.mem_cons, List.not_mem_nil, or_false,
    not_or] at hr
  obtain ⟨h1, h2, h3, h4⟩ := hr
  simp [roleHasPermission, rolePermissionsList, h1, h2, h3, h4]

/-- Claim C2 witness: the unrecognized role "superadmin" holds no
permission, here instanced at `ORG_DELETE`. -/
theorem c2_witness :
    roleHasPermission "superadmin" Permission.orgDelete = false :=
  c2_role_has_permission.2.2 "superadmin" (by decide) Permission.orgDelete

/-- Claim C3: whenever the Role Store lookup returns no membership row,
the access-context resolver fails with the 403 "Access denied" condition,
for every minimum-role or required-permission request; and the outcome is
unchanged under any reassignment of which organizations exist, so a
non-member and a caller naming a nonexistent org receive
indistinguishable denials. -/
theorem c3_no_membership_denied (st : OrgState) (orgId userId : String)
    (minRole : Option OrgRole) (requiredPermission : Option Permission)
    (h : st.memberRole userId orgId = none) :
    getOrgAccessContext st orgId userId minRole requiredPermission =
      Except.error ⟨403, "Access denied"⟩ ∧
    ∀ ex : String → Bool,
      getOrgAccessContext { st with orgExists := ex } orgId userId minRole
          requiredPermission =
        Except.error ⟨403, "Access denied"⟩ := by
  constructor
  · simp [getOrgAccessContext, h]
  · intro ex
    simp [getOrgAccessContext, h]

/-- Claim C3 witness: a concrete Role Store with no membership rows denies
with 403 "Access denied". -/
theorem c3_witness :
    getOrgAccessContext ⟨fun _ _ => none, fun _ => true⟩ "org1" "user1"
        (some OrgRole.viewer) none =
      Except.error ⟨403, "Access denied"⟩ :=
  (c3_no_membership_denied ⟨fun _ _ => none, fun _ => true⟩ "org1" "user1"
    (some OrgRole.viewer) none rfl).1

/-- Claim C9, counterexample: the claim says the generic message surfaced
on an unparseable stored role never contains the invalid raw role value;
but for the invalid stored role string "role" the resolver's fixed
message "Invalid role configuration" does contain "role" as a substring. -/
theorem c9_counterexample :
    parseRole "role" = none ∧
    getOrgAccessContext ⟨fun _ _ => some "role", fun _ => true⟩ "org1" "user1"
        none none =
      Except.error ⟨500, "Invalid role configuration"⟩ ∧
    occursIn "role".data "Invalid role configuration".data = true := by
  refine ⟨rfl, rfl, ?_⟩
  decide

/-- Claim C9 (amended): when the Role Store returns a nonempty role string
that does not map to a known Role, the resolver fails with the 500
"Invalid role configuration" condition — a server error distinct from the
403 access-denied conditions — and the surfaced message is that fixed
generic string, independent of the raw role value (so the raw value is
never echoed, though it can coincidentally occur as a substring of the
fixed message, e.g. the value "role"). -/
theorem c9_amended (st : OrgState) (orgId userId : String)
    (minRole : Option OrgRole) (requiredPermission : Option Permission)
    (s : String) (h : st.memberRole userId orgId = some s)
    (hne : s.isEmpty = false) (hp : parseRole s = none) :
    getOrgAccessContext st orgId userId minRole requiredPermission =
      Except.error ⟨500, "Invalid role configuration"⟩ ∧
    (500 : Nat) ≠ 403 := by
  refine ⟨?_, by decide⟩
  simp [getOrgAccessContext, h, hne, hp]

/-- Claim C9 witness: a concrete Role Store holding the corrupt role
string "moderator" yields the fixed 500 error. -/
theorem c9_amended_witness :
    getOrgAccessContext ⟨fun _ _ => some "moderator", fun _ => false⟩
        "org1" "user1" (some OrgRole.owner) none =
      Except.error ⟨500, "Invalid role configuration"⟩ :=
  (c9_amended ⟨fun _ _ => some "moderator", fun _ => false⟩ "org1" "user1"
    (some OrgRole.owner) none "moderator" rfl rfl rfl).1

/-- Claim C4, counterexample: the claim asserts the 11th free-tier check
in an hour always denies; but at 2024-01-31T23:30:00Z — the 23:00 UTC
hour of a month's last day — the denial path's
`next_hour.replace(day=next_hour.day + 1)` raises `ValueError`
(day 32 is out of range for January), the enclosing `try` catches it, and
the check fails open with `can_proceed=True` and a null limit instead of
denying. -/
theorem c4_counterexample :
    ((fun _ => 10 : RateStore)
        (getCurrentHourKey "u" none ⟨2024, 1, 31, 23, 30, 0⟩) = 10) ∧
    getNextHourResetTime ⟨2024, 1, 31, 23, 30, 0⟩ = none ∧
    (checkHourlyRateLimit "u" none (some "free") ⟨2024, 1, 31, 23, 30, 0⟩
        (fun _ => 10) false false).1.can_proceed = true ∧
    (checkHourlyRateLimit "u" none (some "free") ⟨2024, 1, 31, 23, 30, 0⟩
        (fun _ => 10) false false).1.limit = none := by
  refine ⟨rfl, rfl, rfl, rfl⟩

/-- Claim C4 (amended): for the "free" tier (limit 10), provided the
check does not run in the 23:00 UTC hour of a month's last day (so the
reset timestamp is constructible and `ValueError` is not raised), the
check permits exactly when the post-increment counter value is at most
10; with 10 prior increments in the same UTC hour for the same context,
the 11th check denies: `can_proceed=False`, `current_count=11`,
`limit=10`, a structured rate-limit-exceeded payload carrying the error
code, the count, the limit, the retry delay and the reset timestamp, and
`retry_after_seconds` equal to the seconds remaining until the top of the
next UTC hour, always between 1 and 3600. At an instant where the reset
timestamp is not constructible, a check that would deny instead fails
open (`can_proceed=True`, `limit=None`). -/
theorem c4_amended (userId : String) (orgId : Option String) (t : Tm)
    (resetTm : Tm) (hreset : getNextHourResetTime t = some resetTm)
    (store : RateStore)
    (h : store (getCurrentHourKey userId orgId t) = 10)
    (out : RateCheckOutcome)
    (hout : out = (checkHourlyRateLimit userId orgId (some "free") t store
      false false).1) :
    out.can_proceed = false ∧
    out.current_count = 11 ∧
    out.limit = some 10 ∧
    out.retry_after_seconds = some (secondsUntilNextHour t) ∧
    Option.map (fun e => e.error_code) out.error_response =
      some "HOURLY_RATE_LIMIT_EXCEEDED" ∧
    Option.map (fun e => e.current_count) out.error_response = some 11 ∧
    Option.map (fun e => e.limit) out.error_response = some 10 ∧
    Option.map (fun e => e.retry_after_seconds) out.error_response =
      some (secondsUntilNextHour t) ∧
    Option.map (fun e => e.reset_at) out.error_response =
      some (isoOfTm resetTm) ∧
    1 ≤ secondsUntilNextHour t ∧
    secondsUntilNextHour t ≤ 3600 ∧
    (∀ s : RateStore,
      (checkHourlyRateLimit userId orgId (some "free") t s false
          false).1.can_proceed =
        decide (s (getCurrentHourKey userId orgId t) + 1 ≤ 10)) ∧
    (∀ t' : Tm, ∀ s : RateStore, getNextHourResetTime t' = none →
      10 < s (getCurrentHourKey userId orgId t') →
      (checkHourlyRateLimit userId orgId (some "free") t' s false false).1 =
        failOpenOutcome (some "free")) := by
  have hb1 : 1 ≤ secondsUntilNextHour t := le_max_left 1 _
  have hb2 : secondsUntilNextHour t ≤ 3600 :=
    max_le (by norm_num) (Nat.le_trans (Nat.sub_le _ _) (Nat.le_refl 3600))
  subst hout
  have hred : (checkHourlyRateLimit userId orgId (some "free") t store
      false false).1 =
      { can_proceed := false
        current_count := 11
        limit := some 10
        plan_tier := "free"
        error_response := some (buildRateLimitError 11 10 "free"
          (planDisplayName "free") (secondsUntilNextHour t) (isoOfTm resetTm)
          (contextId userId orgId) (isOrgContext orgId))
        retry_after_seconds := some (secondsUntilNextHour t) } := by
    simp only [checkHourlyRateLimit]
    rw [show normTier (some "free") = "free" from rfl,
      show hourlyLimitFor "free" = some 10 from rfl]
    simp [h, rateLimitVerdict, verdictOrFailOpen, hreset]
  rw [hred]
  refine ⟨rfl, rfl, rfl, rfl, ?_, ?_, ?_, ?_, ?_, hb1, hb2, ?_, ?_⟩
  · simp [buildRateLimitError]
  · simp [buildRateLimitError]
  · simp [buildRateLimitError]
  · simp [buildRateLimitError]
  · simp [buildRateLimitError]
  · intro s
    simp only [checkHourlyRateLimit]
    rw [show normTier (some "free") = "free" from rfl,
      show hourlyLimitFor "free" = some 10 from rfl]
    by_cases h1 : s (getCurrentHourKey userId orgId t) + 1 = 1
    · simp [h1, verdictOrFailOpen, rateLimitVerdict]
    · by_cases h2 : s (getCurrentHourKey userId orgId t) + 1 ≤ 10
      · simp [h1, h2, verdictOrFailOpen, rateLimitVerdict]
      · simp [h1, h2, verdictOrFailOpen, rateLimitVerdict, hreset]
  · intro t' s hnone hgt
    have hne1 : s (getCurrentHourKey userId orgId t') + 1 ≠ 1 := by omega
    have hnle : ¬ s (getCurrentHourKey userId orgId t') + 1 ≤ 10 := by omega
    simp only [checkHourlyRateLimit]
    rw [show normTier (some "free") = "free" from rfl,
      show hourlyLimitFor "free" = some 10 from rfl]
    simp [hne1, hnle, hnone, verdictOrFailOpen, rateLimitVerdict]

/-- Claim C4 witness: at 2024-01-01T00:30:00Z (reset time constructible)
a concrete store holding count 10 for the current hour denies the 11th
check. -/
theorem c4_amended_witness :
    getNextHourResetTime ⟨2024, 1, 1, 0, 30, 0⟩ = some ⟨2024, 1, 1, 1, 0, 0⟩ ∧
    ((fun _ => 10 : RateStore)
        (getCurrentHourKey "u" none ⟨2024, 1, 1, 0, 30, 0⟩) = 10) ∧
    (checkHourlyRateLimit "u" none (some "free") ⟨2024, 1, 1, 0, 30, 0⟩
        (fun _ => 10) false false).1.can_proceed = false :=
  ⟨rfl, rfl, (c4_amended "u" none ⟨2024, 1, 1, 0, 30, 0⟩ ⟨2024, 1, 1, 1, 0, 0⟩
    rfl (fun _ => 10) rfl _ rfl).1⟩

/-- Claim C5: whenever a counter-store call raises during
`check_hourly_rate_limit` — at the increment, or at the expiry call that
follows a first increment — the exception is not propagated: the result
fails open with `can_proceed=True` and a null limit, for every input. -/
theorem c5_fail_open (userId : String) (orgId : Option String)
    (planTier : Option String) (t : Tm) (store : RateStore)
    (incrFails expireFails : Bool)
    (h : incrFails = true ∨
      (expireFails = true ∧ store (getCurrentHourKey userId orgId t) = 0)) :
    (checkHourlyRateLimit userId orgId planTier t store incrFails
        expireFails).1.can_proceed = true ∧
    (checkHourlyRateLimit userId orgId planTier t store incrFails
        expireFails).1.limit = none := by
  rcases hl : hourlyLimitFor (normTier planTier) with _ | limit
  · simp [checkHourlyRateLimit, hl, unlimitedOutcome]
  · rcases h with hI | ⟨hE, h0⟩
    · simp [checkHourlyRateLimit, hl, hI, failOpenOutcome]
    · cases hIF : incrFails
      · simp [checkHourlyRateLimit, hl, hIF, hE, h0, failOpenOutcome]
      · simp [checkHourlyRateLimit, hl, hIF, failOpenOutcome]

/-- Claim C5 witness: a failing increment call on the free tier still
yields a fail-open permit with a null limit. -/
theorem c5_witness :
    ((true : Bool) = true ∨
      ((false : Bool) = true ∧
        (fun _ => 5 : RateStore)
          (getCurrentHourKey "u" none ⟨2024, 1, 1, 12, 0, 0⟩) = 0)) ∧
    (checkHourlyRateLimit "u" none (some "free") ⟨2024, 1, 1, 12, 0, 0⟩
        (fun _ => 5) true false).1.can_proceed = true ∧
    (checkHourlyRateLimit "u" none (some "free") ⟨2024, 1, 1, 12, 0, 0⟩
        (fun _ => 5) true false).1.limit = none :=
  ⟨Or.inl rfl,
   (c5_fail_open "u" none (some "free") ⟨2024, 1, 1, 12, 0, 0⟩ (fun _ => 5)
     true false (Or.inl rfl)).1,
   (c5_fail_open "u" none (some "free") ⟨2024, 1, 1, 12, 0, 0⟩ (fun _ => 5)
     true false (Or.inl rfl)).2⟩

/-- Claim C6: for a plan tier normalizing to "enterprise" the check always
returns `can_proceed=True`, `limit=None`, `current_count=0`, issues no
increment or expire call, and leaves the counter store unchanged — and so
does any number of successive enterprise-tier checks. -/
theorem c6_enterprise_no_store_touch (userId : String) (orgId : Option String)
    (planTier : Option String) (t : Tm) (store : RateStore)
    (incrFails expireFails : Bool)
    (h : normTier planTier = "enterprise") :
    checkHourlyRateLimit userId orgId planTier t store incrFails expireFails =
      ({ can_proceed := true, current_count := 0, limit := none,
         plan_tier := "enterprise", error_response := none,
         retry_after_seconds := none }, store, []) ∧
    ∀ n, iterateRateChecks userId orgId planTier t incrFails expireFails n store
      = store := by
  have key : ∀ s : RateStore,
      checkHourlyRateLimit userId orgId planTier t s incrFails expireFails =
        ({ can_proceed := true, current_count := 0, limit := none,
           plan_tier := "enterprise", error_response := none,
           retry_after_seconds := none }, s, []) := by
    intro s
    simp only [checkHourlyRateLimit]
    rw [h, show hourlyLimitFor "enterprise" = none from rfl]
    rfl
  refine ⟨key store, ?_⟩
  intro n
  induction n with
  | zero => rfl
  | succ n ih =>
      show iterateRateChecks userId orgId planTier t incrFails expireFails n
        (checkHourlyRateLimit userId orgId planTier t store incrFails
          expireFails).2.1 = store
      rw [key store]
      exact ih

/-- Claim C6 witness: a concrete enterprise-tier check returns the
unlimited outcome and the untouched store with an empty call log. -/
theorem c6_witness :
    normTier (some "enterprise") = "enterprise" ∧
    checkHourlyRateLimit "u" (some "org1") (some "enterprise")
        ⟨2024, 1, 1, 0, 0, 0⟩ (fun _ => 7) false false =
      ({ can_proceed := true, current_count := 0, limit := none,
         plan_tier := "enterprise", error_response := none,
         retry_after_seconds := none }, (fun _ => 7 : RateStore), []) :=
  ⟨rfl, (c6_enterprise_no_store_touch "u" (some "org1") (some "enterprise")
    ⟨2024, 1, 1, 0, 0, 0⟩ (fun _ => 7) false false rfl).1⟩

/-- Claim C7: `check_org_agent_limit` decides against the live agent
count: with a non-null plan `agent_limit` L it permits exactly when the
live count n satisfies n < L, a null `agent_limit` always permits, the
reported `current_count` is the live count, a denial carries error code
`ORG_AGENT_LIMIT_EXCEEDED` with `current_count` equal to the live count,
and the usage-ledger columns (`agents_created`, `runs_executed`) never
influence the result. -/
theorem c7_agent_limit_live_count (p : OrgPlanInfo) (n L : Nat)
    (h : p.agent_limit = some L) (k j : Nat) :
    (checkOrgAgentLimit (some p) n).can_create = decide (n < L) ∧
    (checkOrgAgentLimit (some { p with agent_limit := none }) n).can_create
      = true ∧
    (checkOrgAgentLimit (some p) n).current_count = n ∧
    (L ≤ n →
      Option.map (fun e => e.error_code)
          (checkOrgAgentLimit (some p) n).error_response =
        some "ORG_AGENT_LIMIT_EXCEEDED" ∧
      Option.map (fun e => e.current_count)
          (checkOrgAgentLimit (some p) n).error_response = some n) ∧
    checkOrgAgentLimit (some { p with agents_created := k, runs_executed := j })
        n =
      checkOrgAgentLimit (some p) n := by
  refine ⟨?_, ?_, ?_, ?_, ?_⟩
  · by_cases hlt : n < L <;> simp [checkOrgAgentLimit, h, hlt]
  · simp [checkOrgAgentLimit]
  · by_cases hlt : n < L <;> simp [checkOrgAgentLimit, h, hlt]
  · intro hle
    have hlt : ¬ n < L := not_lt.mpr hle
    simp [checkOrgAgentLimit, h, hlt, buildLimitError]
  · simp [checkOrgAgentLimit, h]

/-- Claim C7 witness: `agent_limit` 5 with 5 live agents denies the 6th
creation with `ORG_AGENT_LIMIT_EXCEEDED` and `current_count=5`. -/
theorem c7_witness :
    (⟨"org1", "Acme", "free", "active", some 5, some 100, "Free", 0, 1, 2,
        none⟩ : OrgPlanInfo).agent_limit = some 5 ∧
    (checkOrgAgentLimit (some ⟨"org1", "Acme", "free", "active", some 5,
        some 100, "Free", 0, 1, 2, none⟩) 5).can_create = false ∧
    Option.map (fun e => e.error_code)
        (checkOrgAgentLimit (some ⟨"org1", "Acme", "free", "active", some 5,
          some 100, "Free", 0, 1, 2, none⟩) 5).error_response =
      some "ORG_AGENT_LIMIT_EXCEEDED" ∧
    Option.map (fun e => e.current_count)
        (checkOrgAgentLimit (some ⟨"org1", "Acme", "free", "active", some 5,
          some 100, "Free", 0, 1, 2, none⟩) 5).error_response = some 5 :=
  ⟨rfl,
   by simpa using (c7_agent_limit_live_count ⟨"org1", "Acme", "free", "active",
     some 5, some 100, "Free", 0, 1, 2, none⟩ 5 5 rfl 0 0).1,
   ((c7_agent_limit_live_count ⟨"org1", "Acme", "free", "active", some 5,
     some 100, "Free", 0, 1, 2, none⟩ 5 5 rfl 0 0).2.2.2.1 (le_refl 5)).1,
   ((c7_agent_limit_live_count ⟨"org1", "Acme", "free", "active", some 5,
     some 100, "Free", 0, 1, 2, none⟩ 5 5 rfl 0 0).2.2.2.1 (le_refl 5)).2⟩

/-- Claim C8: the approaching-limit notification dispatches exactly when
the computed percentage satisfies 80 <= percentage < 100 and the dedup
marker for the (org, limit_type) pair is absent, and dispatching sets the
marker; so a first qualifying increment fires it and a later qualifying
increment in the same billing period, with the marker now present, does
not re-fire it. -/
theorem c8_approaching_notification_dedup (c₁ c₂ l : Nat) (hl : l ≠ 0)
    (h₁ : 80 ≤ pythonRound (c₁ * 100) l ∧ pythonRound (c₁ * 100) l < 100)
    (h₂ : 80 ≤ pythonRound (c₂ * 100) l ∧ pythonRound (c₂ * 100) l < 100) :
    checkAndNotifyApproachingLimit c₁ (some l) false = (true, true) ∧
    checkAndNotifyApproachingLimit c₂ (some l)
      (checkAndNotifyApproachingLimit c₁ (some l) false).2 = (false, true) ∧
    (∀ c m, (checkAndNotifyApproachingLimit c (some l) m).1 = true →
      (80 ≤ pythonRound (c * 100) l ∧ pythonRound (c * 100) l < 100) ∧
        m = false) ∧
    (∀ c m, checkAndNotifyApproachingLimit c none m = (false, m)) := by
  have first : checkAndNotifyApproachingLimit c₁ (some l) false = (true, true) := by
    simp [checkAndNotifyApproachingLimit, hl, h₁]
  refine ⟨first, ?_, ?_, ?_⟩
  · rw [first]
    simp [checkAndNotifyApproachingLimit, hl, h₂]
  · intro c m hm
    by_cases hp : 80 ≤ pythonRound (c * 100) l ∧ pythonRound (c * 100) l < 100
    · refine ⟨hp, ?_⟩
      cases m
      · rfl
      · exfalso
        simp [checkAndNotifyApproachingLimit, hl, hp] at hm
    · exfalso
      simp [checkAndNotifyApproachingLimit, hl, hp] at hm
  · intro c m
    rfl

/-- Claim C8 witness: with a run limit of 100, the increment reaching 80
(80%) fires the notification and sets the marker; the later increment
reaching 85 (85%) does not re-fire. -/
theorem c8_witness :
    ((100 : Nat) ≠ 0) ∧
    pythonRound (80 * 100) 100 = 80 ∧
    pythonRound (85 * 100) 100 = 85 ∧
    checkAndNotifyApproachingLimit 80 (some 100) false = (true, true) ∧
    checkAndNotifyApproachingLimit 85 (some 100)
      (checkAndNotifyApproachingLimit 80 (some 100) false).2 = (false, true) :=
  ⟨by decide, by decide, by decide,
   (c8_approaching_notification_dedup 80 85 100 (by decide) (by decide)
     (by decide)).1,
   (c8_approaching_notification_dedup 80 85 100 (by decide) (by decide)
     (by decide)).2.1⟩

/-- Claim C10: a `None` or empty plan tier normalizes to "free" (limit
10), but a nonempty tier whose lowercased form is none of "free", "pro",
"enterprise" gets a `None` limit and the unlimited treatment —
`can_proceed=True`, `current_count=0`, no counter-store call, store
unchanged — i.e. an unrecognized plan tier bypasses rate limiting
entirely rather than being downgraded to the free tier. -/
theorem c10_unknown_tier_unlimited (s : String) (hne : s.isEmpty = false)
    (hfree : pyLower s ≠ "free") (hpro : pyLower s ≠ "pro")
    (hent : pyLower s ≠ "enterprise")
    (userId : String) (orgId : Option String) (t : Tm) (store : RateStore)
    (incrFails expireFails : Bool) :
    normTier none = "free" ∧
    normTier (some "") = "free" ∧
    hourlyLimitFor "free" = some 10 ∧
    checkHourlyRateLimit userId orgId (some s) t store incrFails expireFails =
      ({ can_proceed := true, current_count := 0, limit := none,
         plan_tier := pyLower s, error_response := none,
         retry_after_seconds := none }, store, []) := by
  refine ⟨rfl, rfl, rfl, ?_⟩
  have h1 : normTier (some s) = pyLower s := by simp [normTier, hne]
  have h2 : hourlyLimitFor (pyLower s) = none := by
    simp [hourlyLimitFor, hfree, hpro, hent]
  simp only [checkHourlyRateLimit]
  rw [h1, h2]
  rfl

/-- Claim C10 witness: the unrecognized tier "premium" receives the
unlimited treatment with no store call. -/
theorem c10_witness :
    ("premium".isEmpty = false) ∧
    (pyLower "premium" ≠ "free") ∧
    checkHourlyRateLimit "u" none (some "premium") ⟨2024, 1, 1, 5, 0, 0⟩
        (fun _ => 3) false false =
      ({ can_proceed := true, current_count := 0, limit := none,
         plan_tier := pyLower "premium", error_response := none,
         retry_after_seconds := none }, (fun _ => 3 : RateStore), []) :=
  ⟨rfl, by decide,
   (c10_unknown_tier_unlimited "premium" rfl (by decide) (by decide)
     (by decide) "u" none ⟨2024, 1, 1, 5, 0, 0⟩ (fun _ => 3)
     false false).2.2.2⟩

end Suna
